import Mathlib

/-!
Verification of the eigent terminal session line-editor and the folder
content sanitizer.

The repository ships the unit-test suite of the terminal component
(test/unit/components/Terminal.test.tsx) and the folder viewer
(src/components/Folder/FolderComponent.tsx).  The terminal component
implementation itself (src/components/Terminal/index.tsx) is not part of
the sources available here, so the line editor, key router, echo encoder
and session controller are modelled from the specification (spec.md,
sections 4.1-4.4), with the concrete strings taken from the test suite.
The folder sanitizer is embedded directly from its source.
-/

namespace Eigent

/-! ### Line Buffer (spec 4.1) -/

/-- Modelled from the spec: the terminal component source
(src/components/Terminal/index.tsx) is missing; this is the EditorState of
spec section 3: `buffer` is the in-progress command line, `cursor` an offset
into it. -/
structure EditorState where
  buffer : List Char
  cursor : Nat
deriving Repr, DecidableEq

/-- Modelled from the spec: the initial editor state, empty buffer and
cursor 0. -/
def EditorState.empty : EditorState := ⟨[], 0⟩

/-- Modelled from the spec: `insert(ch)` splices `ch` at `cursor`, advances
`cursor` by 1 (spec 4.1). -/
def EditorState.insert (s : EditorState) (ch : Char) : EditorState :=
  ⟨s.buffer.take s.cursor ++ ch :: s.buffer.drop s.cursor, s.cursor + 1⟩

/-- Modelled from the spec: `deleteBefore()` is a no-op if `cursor == 0`;
otherwise removes the character at `cursor-1` and decrements `cursor`
(spec 4.1). -/
def EditorState.deleteBefore (s : EditorState) : EditorState :=
  if s.cursor = 0 then s
  else ⟨s.buffer.take (s.cursor - 1) ++ s.buffer.drop s.cursor, s.cursor - 1⟩

/-- Modelled from the spec: `moveLeft()` is a no-op if `cursor == 0`;
otherwise decrements `cursor` (spec 4.1). -/
def EditorState.moveLeft (s : EditorState) : EditorState :=
  if s.cursor = 0 then s else ⟨s.buffer, s.cursor - 1⟩

/-- Modelled from the spec: `moveRight()` is a no-op if
`cursor == length(buffer)`; otherwise increments `cursor` (spec 4.1). -/
def EditorState.moveRight (s : EditorState) : EditorState :=
  if s.cursor = s.buffer.length then s else ⟨s.buffer, s.cursor + 1⟩

/-- Modelled from the spec: `take()` returns the current buffer as an
immutable string and resets the buffer to empty and the cursor to 0
(spec 4.1). -/
def EditorState.take (s : EditorState) : String × EditorState :=
  (String.mk s.buffer, EditorState.empty)

/-- Modelled from the spec: the Line Buffer cursor invariant
`0 <= cursor <= length(buffer)` (spec section 3); the lower bound is
implicit in the use of `Nat`. -/
def EditorState.Inv (s : EditorState) : Prop := s.cursor ≤ s.buffer.length

instance (s : EditorState) : Decidable s.Inv := by
  unfold EditorState.Inv; infer_instance

/-- Modelled from the spec: the four editing operations of spec 4.1 that a
key event can dispatch to the Line Buffer. -/
inductive EditOp
  | insert (ch : Char)
  | deleteBefore
  | moveLeft
  | moveRight
deriving Repr, DecidableEq

/-- Modelled from the spec: apply one editing operation to the editor
state. -/
def applyOp (s : EditorState) : EditOp → EditorState
  | .insert ch => s.insert ch
  | .deleteBefore => s.deleteBefore
  | .moveLeft => s.moveLeft
  | .moveRight => s.moveRight

/-- Modelled from the spec: run a sequence of editing operations starting
from the empty editor state. -/
def runOps (ops : List EditOp) : EditorState :=
  ops.foldl applyOp EditorState.empty

theorem inv_applyOp {s : EditorState} (h : s.Inv) (op : EditOp) :
    (applyOp s op).Inv := by
  cases op with
  | insert ch =>
      simp only [applyOp, EditorState.insert, EditorState.Inv] at *
      simp only [List.length_append, List.length_take, List.length_cons,
        List.length_drop]
      omega
  | deleteBefore =>
      simp only [applyOp, EditorState.deleteBefore]
      split
      · exact h
      · simp only [EditorState.Inv] at *
        simp only [List.length_append, List.length_take, List.length_drop]
        omega
  | moveLeft =>
      simp only [applyOp, EditorState.moveLeft]
      split
      · exact h
      · simp only [EditorState.Inv] at *; omega
  | moveRight =>
      simp only [applyOp, EditorState.moveRight]
      split
      · exact h
      · simp only [EditorState.Inv] at *; omega

theorem inv_foldl (ops : List EditOp) :
    ∀ s : EditorState, s.Inv → (ops.foldl applyOp s).Inv := by
  induction ops with
  | nil => intro s h; exact h
  | cons op rest ih =>
      intro s h
      exact ih (applyOp s op) (inv_applyOp h op)

/-- C1: for every sequence of Line Buffer operations (insert, deleteBefore,
moveLeft, moveRight) applied starting from the empty buffer with cursor 0,
the cursor invariant `0 <= cursor <= length(buffer)` holds after every
single step: every prefix of a sequence is itself a sequence, so the
universal quantification over operation lists covers every intermediate
state. -/
theorem lineBuffer_invariant (ops : List EditOp) : (runOps ops).Inv :=
  inv_foldl ops EditorState.empty (by simp [EditorState.empty, EditorState.Inv])

/-- Modelled from the spec: insert every character of a list in order
(used to state the take/insert round trip of spec section 8). -/
def insertAll (s : EditorState) (cs : List Char) : EditorState :=
  cs.foldl EditorState.insert s

theorem insertAll_from_end (cs : List Char) :
    ∀ b : List Char, insertAll ⟨b, b.length⟩ cs = ⟨b ++ cs, (b ++ cs).length⟩ := by
  induction cs with
  | nil => intro b; simp [insertAll]
  | cons c rest ih =>
      intro b
      have hstep : EditorState.insert ⟨b, b.length⟩ c = ⟨b ++ [c], (b ++ [c]).length⟩ := by
        simp [EditorState.insert]
      calc insertAll ⟨b, b.length⟩ (c :: rest)
          = insertAll (EditorState.insert ⟨b, b.length⟩ c) rest := rfl
        _ = insertAll ⟨b ++ [c], (b ++ [c]).length⟩ rest := by rw [hstep]
        _ = ⟨(b ++ [c]) ++ rest, ((b ++ [c]) ++ rest).length⟩ := ih (b ++ [c])
        _ = ⟨b ++ c :: rest, (b ++ c :: rest).length⟩ := by simp

/-- C7: for every Line Buffer state satisfying the cursor invariant,
calling take() (which returns the buffer as a string and resets the state)
and then inserting each character of the returned string in order
reproduces the original buffer contents and leaves the cursor equal to the
buffer length. -/
theorem take_insert_roundtrip (s : EditorState) (h : s.Inv) :
    insertAll s.take.2 s.take.1.data = ⟨s.buffer, s.buffer.length⟩ := by
  have h2 : s.take.2 = (⟨[], ([] : List Char).length⟩ : EditorState) := rfl
  rw [show s.take.1.data = s.buffer from rfl, h2,
    insertAll_from_end s.buffer []]
  simp

/-- C7 witness: the round trip evaluated at the concrete state with buffer
"ab" and cursor 1, which satisfies the invariant. -/
theorem take_insert_roundtrip_witness :
    insertAll (EditorState.take ⟨['a', 'b'], 1⟩).2
      (EditorState.take ⟨['a', 'b'], 1⟩).1.data = ⟨['a', 'b'], 2⟩ :=
  take_insert_roundtrip ⟨['a', 'b'], 1⟩ (by decide)

/-! ### Display Surface calls and Key Router (spec 4.2, 4.3, 6) -/

/-- Modelled from the spec: one call issued to the Display Surface
(open/write/writeln/clear/dispose, spec section 6). -/
inductive DisplayCall
  | openSurface
  | write (s : String)
  | writeln (s : String)
  | clearSurface
  | disposeSurface
deriving Repr, DecidableEq

/-- Modelled from the spec: a raw key event as delivered by the Display
Surface; the `key` string and the modifier flags mirror the event shape
used in the test suite (`key`, `domEvent.ctrlKey/altKey/metaKey`). -/
structure KeyEvent where
  key : String
  ctrlKey : Bool
  altKey : Bool
  metaKey : Bool
deriving Repr, DecidableEq

/-- Modelled from the spec: the Key Router classification outcomes
(spec 4.3). -/
inductive KeyKind
  | enter
  | backspace
  | arrowLeft
  | arrowRight
  | printable (ch : Char)
  | ignored
deriving Repr, DecidableEq

/-- Modelled from the spec: Key Router classification (spec 4.3): a
control/command(meta)-modified event is Ignored; carriage return is Enter;
backspace, left and right arrows map to their edit operations; any other
single printable character is PrintableChar; everything else is
Ignored. -/
def classifyKey (e : KeyEvent) : KeyKind :=
  if e.ctrlKey || e.metaKey then .ignored
  else if e.key = "\r" then .enter
  else if e.key = "\x7f" || e.key = "\x08" then .backspace
  else if e.key = "ArrowLeft" then .arrowLeft
  else if e.key = "ArrowRight" then .arrowRight
  else
    match e.key.data with
    | [c] => if 32 ≤ c.toNat && c.toNat ≠ 127 then .printable c else .ignored
    | _ => .ignored

/-- Modelled from the spec: the prompt string re-emitted after command
execution; the concrete label is taken from the test suite
("Eigent:~$ "). -/
def promptString : String := "Eigent:~$ "

/-- Modelled from the spec: dispatch of one classified key event: Line
Buffer mutation plus the Echo Encoder emission of spec 4.2 (literal char
for insert, backspace-space-backspace for deleteBefore, cursor-left and
cursor-right escapes for the arrows, blank writeln plus fresh prompt for
command execution); a no-op mutation emits nothing. -/
def handleKey (s : EditorState) (e : KeyEvent) : EditorState × List DisplayCall :=
  match classifyKey e with
  | .enter => (s.take.2, [.writeln "", .write promptString])
  | .backspace =>
      if s.cursor = 0 then (s, []) else (s.deleteBefore, [.write "\x08 \x08"])
  | .arrowLeft =>
      if s.cursor = 0 then (s, []) else (s.moveLeft, [.write "\x1b[D"])
  | .arrowRight =>
      if s.cursor = s.buffer.length then (s, [])
      else (s.moveRight, [.write "\x1b[C"])
  | .printable c => (s.insert c, [.write (String.mk [c])])
  | .ignored => (s, [])

/-- Modelled from the spec: process a list of key events in order,
collecting every Display Surface call issued. -/
def runKeys (s : EditorState) : List KeyEvent → EditorState × List DisplayCall
  | [] => (s, [])
  | e :: es =>
      let r := handleKey s e
      let rest := runKeys r.1 es
      (rest.1, r.2 ++ rest.2)

/-- C4: after the key sequence PrintableChar(a) followed by Enter, starting
from the empty line buffer, the Display Surface receives exactly a write of
the literal string "a", then a blank writeln, then a write of the prompt
string. -/
theorem printable_then_enter_trace :
    (runKeys EditorState.empty
      [⟨"a", false, false, false⟩, ⟨"\r", false, false, false⟩]).2
    = [DisplayCall.write "a", DisplayCall.writeln "", DisplayCall.write promptString] := by
  decide

/-- C6: every key event carrying a control or command/meta modifier is
classified as Ignored and its processing issues no Display Surface call at
all, so the number of write calls after the event equals the number before
it. -/
theorem modified_key_ignored (s : EditorState) (e : KeyEvent)
    (h : e.ctrlKey = true ∨ e.metaKey = true) :
    classifyKey e = KeyKind.ignored ∧ (handleKey s e).2 = [] := by
  have hc : classifyKey e = KeyKind.ignored := by
    rcases h with h | h <;> simp [classifyKey, h]
  exact ⟨hc, by simp [handleKey, hc]⟩

/-- C6 witness: the theorem applied to a concrete ctrl+c event at the empty
editor state. -/
theorem modified_key_ignored_witness :
    classifyKey ⟨"c", true, false, false⟩ = KeyKind.ignored ∧
      (handleKey EditorState.empty ⟨"c", true, false, false⟩).2 = [] :=
  modified_key_ignored EditorState.empty ⟨"c", true, false, false⟩ (Or.inl rfl)

/-! ### Substring search helper -/

/-- Decides whether the first character list is a prefix of the second. -/
def startsWithChars : List Char → List Char → Bool
  | [], _ => true
  | _ :: _, [] => false
  | p :: ps, c :: cs => p = c && startsWithChars ps cs

/-- Decides whether the first character list occurs contiguously somewhere
inside the second. -/
def hasSub (pat : List Char) : List Char → Bool
  | [] => pat.isEmpty
  | c :: cs => startsWithChars pat (c :: cs) || hasSub pat cs

/-- Decides whether the string `sub` occurs contiguously inside `s`. -/
def containsSub (s sub : String) : Bool := hasSub sub.data s.data

/-! ### Session Controller (spec 4.4) -/

/-- Modelled from the spec: the props of the terminal instance relevant to
initialization: the welcome flag and the optional instance identifier
(default label "default" when none supplied). -/
structure TermProps where
  showWelcome : Bool
  instanceId : Option String
deriving Repr, DecidableEq

/-- Modelled from the spec: the Session Controller state: the
InitializationFlag, the recorded active session id, and the live editor
state. -/
structure TermState where
  initialized : Bool
  lastTaskId : Option String
  editor : EditorState
deriving Repr, DecidableEq

/-- Modelled from the spec: the controller state of a freshly mounted,
not-yet-initialized terminal instance. -/
def TermState.fresh : TermState := ⟨false, none, EditorState.empty⟩

/-- Modelled from the spec: the three-line welcome banner of spec 4.4
(title line, Instance line with default label "default", ready-for-input
line); the concrete strings are taken from the test suite. -/
def welcomeLines (p : TermProps) : List String :=
  ["=== Eigent Terminal ===",
   "Instance: " ++ p.instanceId.getD "default",
   "Ready for commands..."]

/-- Modelled from the spec: the Uninitialized to Ready transition of spec
4.4: guarded by the InitializationFlag (a second trigger with the flag set
is a no-op), it opens the Display Surface and, if the welcome flag is
enabled, writes the three-line banner. -/
def initTerminal (st : TermState) (p : TermProps) : TermState × List DisplayCall :=
  if st.initialized then (st, [])
  else
    ({ st with initialized := true },
      DisplayCall.openSurface ::
        (if p.showWelcome then (welcomeLines p).map DisplayCall.writeln else []))

/-- Modelled from the spec: two consecutive mounts/renders of the terminal
instance with identical props, collecting every Display Surface call of
both initialization triggers. -/
def mountTwice (p : TermProps) : List DisplayCall :=
  let r1 := initTerminal TermState.fresh p
  let r2 := initTerminal r1.1 p
  r1.2 ++ r2.2

/-- Counts the open() calls in a Display Surface call trace. -/
def countOpen : List DisplayCall → Nat
  | [] => 0
  | DisplayCall.openSurface :: rest => countOpen rest + 1
  | _ :: rest => countOpen rest

/-- Extracts, in order, the contents of the writeln calls of a trace. -/
def writelnTexts : List DisplayCall → List String
  | [] => []
  | DisplayCall.writeln s :: rest => s :: writelnTexts rest
  | _ :: rest => writelnTexts rest

/-- C3: for every choice of props, mounting/rendering the terminal
instance twice with those identical props issues at most one open() call to
the Display Surface: the InitializationFlag guard makes the second
initialization trigger a no-op. -/
theorem mountTwice_opens_at_most_once (p : TermProps) :
    countOpen (mountTwice p) ≤ 1 := by
  obtain ⟨sw, id⟩ := p
  cases sw <;> exact Nat.le_refl 1

/-- C5: on first render the welcome banner is written if and only if the
welcome flag is enabled: with showWelcome true and instanceId
"test-instance" there are exactly three writeln calls and their
concatenation contains "=== Eigent Terminal ===", "Instance:
test-instance" and "Ready for commands..."; with showWelcome false (the
default when the flag is unset) no writeln content contains "=== Eigent
Terminal ===", whatever the instance id. -/
theorem welcome_banner_iff :
    ((writelnTexts (initTerminal TermState.fresh ⟨true, some "test-instance"⟩).2).length = 3
      ∧ containsSub
          (String.join (writelnTexts (initTerminal TermState.fresh ⟨true, some "test-instance"⟩).2))
          "=== Eigent Terminal ===" = true
      ∧ containsSub
          (String.join (writelnTexts (initTerminal TermState.fresh ⟨true, some "test-instance"⟩).2))
          "Instance: test-instance" = true
      ∧ containsSub
          (String.join (writelnTexts (initTerminal TermState.fresh ⟨true, some "test-instance"⟩).2))
          "Ready for commands..." = true)
    ∧ ∀ id : Option String,
        (writelnTexts (initTerminal TermState.fresh ⟨false, id⟩).2).filter
          (fun s => containsSub s "=== Eigent Terminal ===") = [] := by
  refine ⟨⟨by decide, by decide, by decide, by decide⟩, ?_⟩
  intro id
  rfl

/-- C8: when the welcome flag is enabled and no instanceId is supplied, the
banner's instance line uses the default label: some writeln call of the
first render contains "Instance: default". -/
theorem welcome_default_instance :
    (writelnTexts (initTerminal TermState.fresh ⟨true, none⟩).2).any
      (fun s => containsSub s "Instance: default") = true := by
  decide

/-- Modelled from the spec: the Display Surface calls of the Ready to
SwitchingSession to Ready transition of spec 4.4: clear the surface; if the
welcome flag is enabled write the transition banner; if the new session's
history is non-empty write the previous-output marker, each history line,
and the end marker; then re-emit the prompt. -/
def switchCalls (p : TermProps) (history : List String) : List DisplayCall :=
  DisplayCall.clearSurface ::
    (if p.showWelcome then [DisplayCall.writeln "\x1b[32mTask switched...\x1b[0m"] else [])
    ++ (if history.isEmpty then []
        else DisplayCall.writeln "--- Previous Output ---"
          :: history.map DisplayCall.writeln
          ++ [DisplayCall.writeln "--- End Previous Output ---"])
    ++ [DisplayCall.write promptString]

/-- Modelled from the spec: the Session Controller observing the active
session id: if it equals the recorded one nothing happens; otherwise the
switch transition runs, the editor state is reset and the new id is
recorded (spec 4.4). -/
def observeTask (p : TermProps) (st : TermState) (activeId : String)
    (history : List String) : TermState × List DisplayCall :=
  if st.lastTaskId = some activeId then (st, [])
  else ({ st with editor := EditorState.empty, lastTaskId := some activeId },
        switchCalls p history)

/-- C2: when the observed active session id changes (here from "t1" to
"t2") and the new session's history is ["Previous command output"], the
controller issues exactly a clear() call and then writeln calls
"--- Previous Output ---", "Previous command output",
"--- End Previous Output ---" in that order, followed by the prompt
re-emission. -/
theorem switch_replays_history :
    (observeTask ⟨false, none⟩ ⟨true, some "t1", EditorState.empty⟩ "t2"
      ["Previous command output"]).2
    = [DisplayCall.clearSurface,
       DisplayCall.writeln "--- Previous Output ---",
       DisplayCall.writeln "Previous command output",
       DisplayCall.writeln "--- End Previous Output ---",
       DisplayCall.write promptString] := by
  decide

/-! ### Folder content sanitizer

Embedded from src/components/Folder/FolderComponent.tsx.  The component
computes `sanitizedHtml` from `selectedFile?.content`: missing or empty
content yields the empty string at once; otherwise the raw content is
tested against ten case-insensitive regular expressions
(`dangerousPatterns`) and fully suppressed on any match; only clean
content reaches `DOMPurify.sanitize`.  DOMPurify is an external library,
modelled as an abstract `purify` function parameter.  The regexes use only
case-insensitive literals, `\s*`, `\d+` and the quote class, so they are
embedded as token lists; `\s*` and `\d+` are matched greedily, which is
equivalent to the source regexes because in every pattern the token
following `\s*` can never consume a whitespace character and the token
following `\d+` can never consume a digit. -/

/-- Decides membership in the JavaScript regex whitespace class `\s`. -/
def isJsSpace (c : Char) : Bool :=
  c.toNat = 9 || c.toNat = 10 || c.toNat = 11 || c.toNat = 12 || c.toNat = 13
  || c.toNat = 32 || c.toNat = 0xa0 || c.toNat = 0x1680
  || (0x2000 ≤ c.toNat && c.toNat ≤ 0x200a)
  || c.toNat = 0x2028 || c.toNat = 0x2029 || c.toNat = 0x202f
  || c.toNat = 0x205f || c.toNat = 0x3000 || c.toNat = 0xfeff

/-- Decides membership in the source's quote character class: apostrophe
(39), double quote (34) or backtick (96). -/
def isQuoteChar (c : Char) : Bool :=
  c.toNat = 39 || c.toNat = 34 || c.toNat = 96

/-- Consumes a maximal run of `\s` characters. -/
def dropWS : List Char → List Char
  | [] => []
  | c :: cs => if isJsSpace c then dropWS cs else c :: cs

/-- Consumes a maximal run of decimal digits. -/
def dropDigits : List Char → List Char
  | [] => []
  | c :: cs => if c.isDigit then dropDigits cs else c :: cs

/-- Matches a case-insensitive literal as a prefix, returning the rest of
the input on success (`i` flag semantics: ASCII case folding). -/
def matchLitCI : List Char → List Char → Option (List Char)
  | [], cs => some cs
  | _ :: _, [] => none
  | p :: ps, c :: cs => if c.toLower = p.toLower then matchLitCI ps cs else none

/-- Tokens of the component's dangerous-pattern regexes: a case-insensitive
literal, `\s*`, the quote class `[... 39 34 96 ...]`, and `\d+`. -/
inductive RTok
  | lit (s : String)
  | ws
  | quoteChar
  | digits
deriving Repr, DecidableEq

/-- Matches a token list as a prefix of the input, returning the rest on
success. -/
def matchToks : List RTok → List Char → Option (List Char)
  | [], cs => some cs
  | RTok.lit s :: ps, cs =>
      match matchLitCI s.data cs with
      | some rest => matchToks ps rest
      | none => none
  | RTok.ws :: ps, cs => matchToks ps (dropWS cs)
  | RTok.quoteChar :: _, [] => none
  | RTok.quoteChar :: ps, c :: cs => if isQuoteChar c then matchToks ps cs else none
  | RTok.digits :: _, [] => none
  | RTok.digits :: ps, c :: cs =>
      if c.isDigit then matchToks ps (dropDigits cs) else none

/-- Decides whether the pattern matches at some position of the input,
the semantics of `RegExp.test` for the embedded patterns (each pattern
object is freshly created per evaluation in the source, so `lastIndex`
state is irrelevant). -/
def regexSearch (pat : List RTok) : List Char → Bool
  | [] => (matchToks pat []).isSome
  | c :: cs => (matchToks pat (c :: cs)).isSome || regexSearch pat cs

/-- Embedded from the source: the ten `dangerousPatterns` regexes of
FolderComponent, in source order. -/
def dangerousPatterns : List (List RTok) :=
  [[RTok.lit "ipcRenderer"],
   [RTok.lit "window", RTok.ws, RTok.lit "[", RTok.ws, RTok.quoteChar,
    RTok.lit "ipcRenderer", RTok.quoteChar, RTok.ws, RTok.lit "]"],
   [RTok.lit "parent", RTok.ws, RTok.lit ".", RTok.ws, RTok.lit "ipcRenderer"],
   [RTok.lit "top", RTok.ws, RTok.lit ".", RTok.ws, RTok.lit "ipcRenderer"],
   [RTok.lit "frames", RTok.ws, RTok.lit "[", RTok.ws, RTok.digits, RTok.ws,
    RTok.lit "]", RTok.ws, RTok.lit ".", RTok.ws, RTok.lit "ipcRenderer"],
   [RTok.lit "require", RTok.ws, RTok.lit "(", RTok.ws, RTok.quoteChar,
    RTok.lit "electron", RTok.quoteChar, RTok.ws, RTok.lit ")"],
   [RTok.lit "process", RTok.ws, RTok.lit ".", RTok.ws, RTok.lit "versions",
    RTok.ws, RTok.lit ".", RTok.ws, RTok.lit "electron"],
   [RTok.lit "nodeIntegration"],
   [RTok.lit "webSecurity"],
   [RTok.lit "contextIsolation"]]

/-- Decides whether the raw content matches any dangerous pattern (the
for-loop over `dangerousPatterns` in the source). -/
def matchesDangerous (raw : String) : Bool :=
  dangerousPatterns.any (fun p => regexSearch p raw.data)

/-- Result of the component's `sanitizedHtml` memo, instrumented with
whether the dangerous-pattern loop was entered and whether
`DOMPurify.sanitize` was invoked. -/
structure SanitizeResult where
  html : String
  patternChecked : Bool
  purifyCalled : Bool
deriving Repr, DecidableEq

/-- Embedded from the source: the `sanitizedHtml` computation.  `content`
is `selectedFile?.content`, with `none` covering both `null` and
`undefined` (`selectedFile?.content || ""` maps all of them, and the empty
string, to `""`); `if (!raw) return ""` short-circuits before any pattern
check; a dangerous match returns `""` before DOMPurify; otherwise
`DOMPurify.sanitize` (the abstract `purify`) is applied. -/
def sanitizedHtml (purify : String → String) (content : Option String) :
    SanitizeResult :=
  let raw := content.getD ""
  if raw = "" then ⟨"", false, false⟩
  else if matchesDangerous raw then ⟨"", true, false⟩
  else ⟨purify raw, true, true⟩

/-- C9: for every input string matching any of the dangerous patterns and
every behaviour of DOMPurify, the sanitized HTML is the empty string — the
entire content is suppressed after the pattern check, and DOMPurify is
never invoked. -/
theorem dangerous_content_suppressed (purify : String → String) (raw : String)
    (h : matchesDangerous raw = true) :
    sanitizedHtml purify (some raw) = ⟨"", true, false⟩ := by
  have hne : ¬ raw = "" := by
    intro he
    rw [he] at h
    exact absurd h (by decide)
  simp [sanitizedHtml, hne, h]

/-- C9 witness: the suppression theorem applied to the concrete input
"ipcRenderer" (which matches the first pattern) and the identity as the
DOMPurify behaviour. -/
theorem dangerous_content_suppressed_witness :
    sanitizedHtml id (some "ipcRenderer") = ⟨"", true, false⟩ :=
  dangerous_content_suppressed id "ipcRenderer" (by decide)

/-- C10: the component is total on missing content: for content null or
undefined (both `none`) and for the empty string, the sanitized HTML is the
empty string, the dangerous-pattern check is never entered and DOMPurify is
never invoked, for every behaviour of DOMPurify; totality of the Lean
function witnesses that no exception is possible. -/
theorem missing_content_total (purify : String → String) :
    sanitizedHtml purify none = ⟨"", false, false⟩
    ∧ sanitizedHtml purify (some "") = ⟨"", false, false⟩ :=
  ⟨rfl, rfl⟩

end Eigent
